import Mathlib

/-
  Verification development for the Duestack ParsedDeadlineSuggestions core.

  Shallow embedding conventions:
  * JavaScript Date values are modelled at minute granularity as minutes since
    1970-01-01T00:00 in a fixed-offset local time (DST is not modelled; no claim
    here depends on it).  An Invalid Date is a separate constructor; arithmetic
    comparisons against NaN are modelled as returning false, as in JS.
  * The ECMAScript string-to-Date parser (new Date(string)) is an external
    library function; operations that call it take it as an explicit
    parameter `parseDate : String -> JsDate`.
  * Optional JS fields are Option; JS truthiness of a string option is
    "present and non-empty", of a number option "present and non-zero".
  * Random id generation is modelled by an explicit id supply `mkId : Nat -> String`
    indexed by the number of suggestions constructed so far.
  * The JSON text stage of parseLLMResponse (regex extraction + JSON.parse) is
    abstracted: operations receive the already-parsed payload value.  Payload
    shapes that the code distinguishes (non-object, missing or non-array
    suggestions field, array of items) are an inductive type.
-/

namespace Duestack

/-! ## Characters and strings -/

/-- Numeric value of a decimal digit character. -/
def digitVal (c : Char) : Nat := c.toNat - '0'.toNat

/-- ASCII lowercase of a string (models String.prototype.toLowerCase on the
ASCII inputs used by this code). -/
def strLower (s : String) : String := String.mk (s.data.map Char.toLower)

/-- Does the second list start with the first (models the leading part of a
substring search)? -/
def startsWithChars : List Char → List Char → Bool
  | [], _ => true
  | _ :: _, [] => false
  | a :: as, b :: bs => a == b && startsWithChars as bs

/-- Does the list contain the given character sequence (models
String.prototype.includes)? -/
def containsChars (needle : List Char) : List Char → Bool
  | [] => needle.isEmpty
  | c :: rest => startsWithChars needle (c :: rest) || containsChars needle rest

/-- String containment, models hay.includes(needle). -/
def includesStr (hay needle : String) : Bool := containsChars needle.data hay.data

/-- Count of occurrences of a string in a list of strings. -/
def countW (w : String) : List String → Nat
  | [] => 0
  | x :: rest => (if x = w then 1 else 0) + countW w rest

/-! ## The time-of-day regex

Models the JavaScript regex match
  newTime.match(/(\d{1,2}):(\d{2})\s*(am|pm)?/i)
used by updateSuggestionTime in the editing module: leftmost match, greedy
one-or-two-digit hour with backtracking, exactly two minute digits, optional
whitespace, optional case-insensitive am/pm capture. -/

/-- JS whitespace characters relevant here. -/
def isSpaceChar (c : Char) : Bool := c == ' ' || c == '\t' || c == '\n' || c == '\r'

/-- Greedily drop whitespace (the regex fragment matching zero or more spaces). -/
def dropSpaces : List Char → List Char
  | c :: rest => if isSpaceChar c then dropSpaces rest else c :: rest
  | [] => []

/-- The optional am/pm capture group: some false = am, some true = pm,
none = group did not participate. -/
def matchPeriod : List Char → Option Bool
  | a :: m :: _ =>
    if (a == 'a' || a == 'A') && (m == 'm' || m == 'M') then some false
    else if (a == 'p' || a == 'P') && (m == 'm' || m == 'M') then some true
    else none
  | _ => none

/-- After the hour digits: a colon, exactly two minute digits, optional
whitespace and optional am/pm. -/
def matchTimeTail (hrs : Nat) : List Char → Option (Nat × Nat × Option Bool)
  | ':' :: d1 :: d2 :: rest =>
    if d1.isDigit && d2.isDigit then
      some (hrs, digitVal d1 * 10 + digitVal d2, matchPeriod (dropSpaces rest))
    else none
  | _ => none

/-- Try to match the whole pattern at the head of the list, greedy on the
hour digits with backtracking as the regex engine does. -/
def matchTimeAt : List Char → Option (Nat × Nat × Option Bool)
  | c0 :: c1 :: rest =>
    if c0.isDigit then
      if c1.isDigit then
        match matchTimeTail (digitVal c0 * 10 + digitVal c1) rest with
        | some r => some r
        | none => matchTimeTail (digitVal c0) (c1 :: rest)
      else matchTimeTail (digitVal c0) (c1 :: rest)
    else none
  | _ => none

/-- Leftmost match of the time pattern anywhere in the character list. -/
def searchTime : List Char → Option (Nat × Nat × Option Bool)
  | [] => none
  | c :: rest =>
    match matchTimeAt (c :: rest) with
    | some r => some r
    | none => searchTime rest

/-! ## Dates -/

/-- Minutes since 1970-01-01T00:00 local (fixed offset). -/
abbrev Minutes := Nat

/-- A JS Date at minute granularity; invalid models Invalid Date (NaN time). -/
inductive JsDate
  | invalid
  | valid (t : Minutes)
deriving DecidableEq

/-- Day-of-month of a civil day count since 1970-01-01 (Gregorian, the
standard days-to-civil conversion). -/
def civilDayOfMonth (z0 : Nat) : Nat :=
  let z := z0 + 719468
  let doe := z % 146097
  let yoe := (doe - doe / 1460 + doe / 36524 - doe / 146096) / 365
  let doy := doe - (365 * yoe + yoe / 4 - yoe / 100)
  let mp := (5 * doy + 2) / 153
  doy - (153 * mp + 2) / 5 + 1

namespace JsDate

/-- getHours(); none models NaN. -/
def getHoursN : JsDate → Option Nat
  | invalid => none
  | valid t => some (t % 1440 / 60)

/-- getDay() (0 = Sunday .. 6 = Saturday); 1970-01-01 was a Thursday (= 4). -/
def getDayN : JsDate → Option Nat
  | invalid => none
  | valid t => some ((4 + t / 1440) % 7)

/-- getDate() (day of month); none models NaN. -/
def getDateN : JsDate → Option Nat
  | invalid => none
  | valid t => some (civilDayOfMonth (t / 1440))

/-- The civil day index (used to state that the date component of a Date is
unchanged: equal year/month/day is exactly equal day index). -/
def dayNumber : JsDate → Option Nat
  | invalid => none
  | valid t => some (t / 1440)

/-- setHours(h, m, 0, 0): ECMAScript MakeDate/MakeTime is linear in the hour
and minute arguments, so out-of-range values roll over into following days. -/
def setHoursMinutes : JsDate → Nat → Nat → JsDate
  | invalid, _, _ => invalid
  | valid t, h, m => valid (t / 1440 * 1440 + h * 60 + m)

end JsDate

/-! ## Data model (parsed-deadline-suggestions interfaces) -/

inductive SourceType
  | SYLLABUS
  | IMAGE
  | WEBSITE
  | CANVAS
deriving DecidableEq

inductive ExtractionMethod
  | RULES
  | LLM
deriving DecidableEq

structure UploadedDocument where
  id : String
  filename : String
  content : String
  fileType : String
  uploadDate : JsDate
deriving DecidableEq

structure User where
  id : String
  name : String
  email : String
  canvasApiKey : Option String := none
deriving DecidableEq

/-- The Canvas metadata object that parseFromCanvas stringifies into
canvasMetadata and extractCourseFromSuggestion parses back (the
stringify/parse round trip is the identity, so it is kept structured). -/
structure CanvasMeta where
  title : Option String := none
  due_date : Option String := none
  course_name : Option String := none
deriving DecidableEq

/-- ParsedDeadlineSuggestion.  Optional JS fields are Option; the optional
confirmed boolean is a Bool with undefined mapped to false (JS falsy), and the
optional warnings array is a List with undefined mapped to [] (the code only
reads it through a spread with [] default).  due is Option JsDate: none models
a missing (undefined) value, some JsDate.invalid an Invalid Date, which in JS
is an object and hence truthy. -/
structure Suggestion where
  id : String
  title : String
  due : Option JsDate
  source : SourceType
  confirmed : Bool := false
  confidence : Option ℚ := none
  extractionMethod : Option ExtractionMethod := none
  provenance : Option String := none
  warnings : List String := []
  uploadedDocument : Option UploadedDocument := none
  canvasMetadata : Option CanvasMeta := none
  websiteUrl : Option String := none
deriving DecidableEq

/-- JS truthiness of an optional string field. -/
def truthyStr : Option String → Bool
  | none => false
  | some s => s != ""

/-- JS truthiness of an optional number field (NaN is not modelled). -/
def truthyNum : Option ℚ → Bool
  | none => false
  | some c => c != 0

/-- The updates record taken by editSuggestion: each field is applied only
when provided (the code tests `!== undefined`). -/
structure SuggestionUpdates where
  title : Option String := none
  due : Option JsDate := none
  confidence : Option ℚ := none
  provenance : Option String := none
deriving DecidableEq

/-! ## Store (ParsedDeadlineState)

The state is the suggestions array; the extraction configuration held next to
it is never touched by the operations the claims are about and is omitted. -/

/-- getSuggestionById: first element with the given id, or null. -/
def getSuggestionById (st : List Suggestion) (sid : String) : Option Suggestion :=
  st.find? (fun s => s.id == sid)

/-- updateSuggestion: replace the first element whose id matches; none models
the not-found (false) result, in which case the array is untouched. -/
def updateSuggestionList : List Suggestion → String → Suggestion → Option (List Suggestion)
  | [], _, _ => none
  | s :: rest, sid, v =>
    if s.id == sid then some (v :: rest)
    else
      match updateSuggestionList rest sid v with
      | some rest2 => some (s :: rest2)
      | none => none

/-! ## Editor (parsed-deadline-editing) -/

/-- editSuggestion (module-level): applies the provided fields and appends the
fixed manual-edit warning. -/
def editSuggestionPure (s : Suggestion) (u : SuggestionUpdates) : Suggestion :=
  let s1 := match u.title with
    | some t => { s with title := t }
    | none => s
  let s2 := match u.due with
    | some d => { s1 with due := some d }
    | none => s1
  let s3 := match u.confidence with
    | some c => { s2 with confidence := some c }
    | none => s2
  let s4 := match u.provenance with
    | some p => { s3 with provenance := some p }
    | none => s3
  { s4 with warnings := s4.warnings ++ ["Manually edited by user"] }

/-- The 12-hour-clock adjustment applied to the matched hour value:
pm and hours different from 12 adds 12; am and hours equal to 12 gives 0. -/
def adjustHours (h : Nat) : Option Bool → Nat
  | some true => if h != 12 then h + 12 else h
  | some false => if h == 12 then 0 else h
  | none => h

/-- updateSuggestionTime (module-level): parse the time text with the regex;
on failure return false (modelled none) touching nothing; on success replace
due by the suggestion's due with setHours(hours, minutes, 0, 0) applied, via
editSuggestion.  new Date(undefined) is an Invalid Date. -/
def updateSuggestionTimePure (s : Suggestion) (newTime : String) : Option Suggestion :=
  match searchTime newTime.data with
  | none => none
  | some (h0, m, period) =>
    let base : JsDate := match s.due with
      | some d => d
      | none => JsDate.invalid
    some (editSuggestionPure s { due := some (base.setHoursMinutes (adjustHours h0 period) m) })

/-! ## LLM response payloads and structural validation -/

/-- A raw candidate entry of the extractor response.  Values are modelled as
already type-homogeneous: a missing field is none (non-string titles and the
like are outside the model). -/
structure RawItem where
  title : Option String := none
  due : Option String := none
  confidence : Option ℚ := none
  provenance : Option String := none
deriving DecidableEq

/-- The suggestions field of a parsed payload object. -/
inductive SuggestionsField
  | missing
  | notArray
  | arr (items : List RawItem)
deriving DecidableEq

/-- The parsed JSON payload handed to parseLLMResponse (the JSON text stage is
abstracted, see the header comment). -/
inductive Payload
  | notObject
  | object (sf : SuggestionsField)
deriving DecidableEq

/-- validateLLMResponse: throws (error) when the payload is not an object or
the suggestions field is missing or not an array; per-entry field issues are
only collected and returned (logged in the source), never thrown.  Message
texts are abbreviated; no theorem depends on them. -/
def validateLLMResponse (parseDate : String → JsDate) (p : Payload) :
    Except String (List String) :=
  match p with
  | .notObject => .error "LLM response is not a valid JSON object"
  | .object .missing => .error "LLM response missing suggestions array"
  | .object .notArray => .error "LLM response missing suggestions array"
  | .object (.arr items) =>
    .ok (items.foldl (fun acc item =>
      let acc1 := if !(match item.title with
        | some t => t != ""
        | none => false) then acc ++ ["Missing or invalid title field"] else acc
      let acc2 := match item.due with
        | none => acc1 ++ ["Missing due field"]
        | some d =>
          if d = "" then acc1 ++ ["Missing due field"]
          else if parseDate d = JsDate.invalid then acc1 ++ ["Invalid date format"] else acc1
      let acc3 := match item.confidence with
        | some c => if c < 0 ∨ 1 < c then acc2 ++ ["Invalid confidence score"] else acc2
        | none => acc2
      let acc4 := if (match item.title with
        | some t => includesStr (strLower t) "tbd"
        | none => false) then acc3 ++ ["LLM may have hallucinated date for TBD item"] else acc3
      if (match item.title with
        | some t => includesStr (strLower t) "soon"
        | none => false) then acc4 ++ ["LLM may have hallucinated date for vague soon item"] else acc4)
      [])

/-- The Suggestion a surviving candidate entry is converted to: fresh id,
falsy-confidence and falsy-provenance defaults, document and (truthy) website
URL references attached when present. -/
def itemToSuggestion (parseDate : String → JsDate) (mkId : Nat → String)
    (document : Option UploadedDocument) (source : SourceType)
    (websiteUrl : Option String) (idx : Nat) (item : RawItem) : Suggestion :=
  { id := mkId idx
    title := item.title.getD ""
    due := some (parseDate (item.due.getD ""))
    source := source
    confirmed := false
    extractionMethod := some .LLM
    confidence := some (match item.confidence with
      | some c => if c = 0 then mkRat 5 10 else c
      | none => mkRat 5 10)
    provenance := some (match item.provenance with
      | some pv => if pv = "" then "LLM extraction" else pv
      | none => "LLM extraction")
    warnings := []
    uploadedDocument := document
    canvasMetadata := none
    websiteUrl := match websiteUrl with
      | some u => if u = "" then none else some u
      | none => none }

/-- The loop of parseLLMResponse: skip entries with a falsy title or falsy
due, convert the rest. -/
def convertItems (parseDate : String → JsDate) (mkId : Nat → String)
    (document : Option UploadedDocument) (source : SourceType)
    (websiteUrl : Option String) : List RawItem → Nat → List Suggestion
  | [], _ => []
  | item :: rest, idx =>
    if truthyStr item.title && truthyStr item.due then
      itemToSuggestion parseDate mkId document source websiteUrl idx item
        :: convertItems parseDate mkId document source websiteUrl rest (idx + 1)
    else convertItems parseDate mkId document source websiteUrl rest idx

/-- parseLLMResponse: structural validation first (fatal), then the redundant
suggestions-array check, then the conversion loop. -/
def parseLLMResponse (parseDate : String → JsDate) (mkId : Nat → String)
    (p : Payload) (document : Option UploadedDocument) (source : SourceType)
    (websiteUrl : Option String) : Except String (List Suggestion) :=
  match validateLLMResponse parseDate p with
  | .error e => .error e
  | .ok _issues =>
    match p with
    | .object (.arr items) =>
      .ok (convertItems parseDate mkId document source websiteUrl items 0)
    | _ => .error "Invalid response format - missing suggestions array"

/-! ## Domain validation (parsed-deadline-validators) -/

/-- Append one warning string to a suggestion. -/
def addWarn (s : Suggestion) (w : String) : Suggestion :=
  { s with warnings := s.warnings ++ [w] }

/-- The late-evening warning string of validateAcademicCalendarLogic. -/
def lateWarn : String := "Very late evening deadline - verify if correct"

/-- The vague-term hallucination warning string of validateForHallucination. -/
def hallucWarn : String := "High confidence on vague term - possible hallucination"

/-- Weekend check of validateAcademicCalendarLogic.  The three blocks of that
function run sequentially on one suggestion, each appending at most one
warning; they are named individually here.  Comparisons against the NaN of an
Invalid Date are false; due is always a Date object on this path. -/
def weekendCheck (s : Suggestion) (issues : List String) : Suggestion × List String :=
  match (match s.due with
    | some d => d
    | none => JsDate.invalid).getDayN with
  | some d =>
    if d = 0 ∨ d = 6 then
      (addWarn s "Weekend deadline - verify if correct", issues ++ ["weekend deadline"])
    else (s, issues)
  | none => (s, issues)

/-- Before-06:00 check of validateAcademicCalendarLogic. -/
def earlyMorningCheck (s : Suggestion) (issues : List String) : Suggestion × List String :=
  match (match s.due with
    | some d => d
    | none => JsDate.invalid).getHoursN with
  | some h =>
    if h < 6 then
      (addWarn s "Very early morning deadline - verify if correct",
       issues ++ ["very early morning deadline"])
    else (s, issues)
  | none => (s, issues)

/-- After-23 check of validateAcademicCalendarLogic, with the guard written
exactly as in the source: getHours() strictly greater than 23. -/
def lateEveningCheck (s : Suggestion) (issues : List String) : Suggestion × List String :=
  match (match s.due with
    | some d => d
    | none => JsDate.invalid).getHoursN with
  | some h =>
    if h > 23 then
      (addWarn s "Very late evening deadline - verify if correct",
       issues ++ ["very late evening deadline"])
    else (s, issues)
  | none => (s, issues)

/-- validateAcademicCalendarLogic: the weekend, very-early and very-late
blocks in sequence (appending a warning leaves due untouched, so re-reading
the day and hour per block equals the source's one computation at entry). -/
def validateAcademicCalendarLogic (s : Suggestion) (issues : List String) :
    Suggestion × List String :=
  let p1 := weekendCheck s issues
  let p2 := earlyMorningCheck p1.1 p1.2
  lateEveningCheck p2.1 p2.2

/-- The closed list of vague marker words. -/
def vagueTerms : List String := ["tbd", "soon", "later", "eventually", "sometime"]

/-- title.toLowerCase() contains some vague term. -/
def hasVagueTerms (title : String) : Bool :=
  vagueTerms.any (fun term => includesStr (strLower title) term)

/-- Vague-term/high-confidence block of validateForHallucination
(0.7 is written mkRat 7 10). -/
def vagueTermCheck (s : Suggestion) (issues : List String) : Suggestion × List String :=
  if hasVagueTerms s.title && truthyNum s.confidence
      && (match s.confidence with
        | some c => decide (mkRat 7 10 < c)
        | none => false) then
    (addWarn s hallucWarn, issues ++ ["high confidence for vague term"])
  else (s, issues)

/-- Less-than-a-day block of validateForHallucination: strictly between now
and now plus 24 hours. -/
def shortDeadlineCheck (now : Minutes) (s : Suggestion) (issues : List String) :
    Suggestion × List String :=
  match s.due with
  | some (.valid t) =>
    if now < t ∧ t - now < 1440 then
      (addWarn s "Very short deadline - verify if correct",
       issues ++ ["deadline less than 1 day away"])
    else (s, issues)
  | _ => (s, issues)

/-- Round-date block of validateForHallucination (day of month 1, 15, 30 or
31 with confidence above 0.8, written mkRat 8 10; the source also computes
the month but never uses it). -/
def roundDateCheck (s : Suggestion) (issues : List String) : Suggestion × List String :=
  match (match s.due with
    | some d => d
    | none => JsDate.invalid).getDateN with
  | some dayOfMonth =>
    if (dayOfMonth = 1 ∨ dayOfMonth = 15 ∨ dayOfMonth = 30 ∨ dayOfMonth = 31)
        ∧ (truthyNum s.confidence && (match s.confidence with
          | some c => decide (mkRat 8 10 < c)
          | none => false)) = true then
      (addWarn s "High confidence on round date - possible generation",
       issues ++ ["high confidence for round date"])
    else (s, issues)
  | none => (s, issues)

/-- validateForHallucination: the three blocks in sequence. -/
def validateForHallucination (now : Minutes) (s : Suggestion) (issues : List String) :
    Suggestion × List String :=
  let p1 := vagueTermCheck s issues
  let p2 := shortDeadlineCheck now p1.1 p1.2
  roundDateCheck p2.1 p2.2

/-- Past-date block of validateSuggestions. -/
def pastDateCheck (now : Minutes) (s : Suggestion) (issues : List String) :
    Suggestion × List String :=
  match s.due with
  | some (.valid t) =>
    if t < now then (addWarn s "Date is in the past", issues ++ ["date in the past"])
    else (s, issues)
  | _ => (s, issues)

/-- More-than-a-year block of validateSuggestions. -/
def farFutureCheck (now : Minutes) (s : Suggestion) (issues : List String) :
    Suggestion × List String :=
  match s.due with
  | some (.valid t) =>
    if t > now + 365 * 1440 then
      (addWarn s "Date is very far in the future",
       issues ++ ["date more than a year in the future"])
    else (s, issues)
  | _ => (s, issues)

/-- Case-insensitive duplicate-title block of validateSuggestions, against
the existing collection. -/
def duplicateCheck (allSugs : List Suggestion) (s : Suggestion) (issues : List String) :
    Suggestion × List String :=
  if allSugs.any (fun o => strLower o.title == strLower s.title && o.id != s.id) then
    (addWarn s "Potential duplicate", issues ++ ["duplicate suggestion"])
  else (s, issues)

/-- Low-confidence block of validateSuggestions (truthy confidence below 0.3,
written mkRat 3 10). -/
def lowConfidenceCheck (s : Suggestion) (issues : List String) : Suggestion × List String :=
  if truthyNum s.confidence && (match s.confidence with
    | some c => decide (c < mkRat 3 10)
    | none => false) then
    (addWarn s "Low confidence score", issues ++ ["low confidence suggestion"])
  else (s, issues)

/-- One iteration of the validateSuggestions loop: temporal plausibility,
duplicate titles, low confidence, calendar anomalies, hallucination
heuristics, in source order. -/
def validateSuggestionOne (now : Minutes) (allSugs : List Suggestion)
    (s : Suggestion) (issues : List String) : Suggestion × List String :=
  let p1 := pastDateCheck now s issues
  let p2 := farFutureCheck now p1.1 p1.2
  let p3 := duplicateCheck allSugs p2.1 p2.2
  let p4 := lowConfidenceCheck p3.1 p3.2
  let p5 := validateAcademicCalendarLogic p4.1 p4.2
  validateForHallucination now p5.1 p5.2

/-- validateSuggestions: runs the per-suggestion checks over a freshly parsed
batch, annotating each against the full existing collection; never throws. -/
def validateSuggestionsRun (now : Minutes) (suggestions allSugs : List Suggestion) :
    List Suggestion × List String :=
  suggestions.foldl
    (fun acc s =>
      let r := validateSuggestionOne now allSugs s acc.2
      (acc.1 ++ [r.1], r.2))
    ([], [])

/-! ## Service operations (ParsedDeadlineSuggestions)

Each stateful operation returns its caller-visible result together with the
suggestions array after the call; a thrown error leaves the array as it was. -/

/-- The canonical tuple confirm emits to Deadlines.create. -/
structure ConfirmData where
  course : String
  title : String
  due : Option JsDate
  source : SourceType
  addedBy : User
deriving DecidableEq

/-- extractCourseFromSuggestion: Canvas metadata course name when present,
else the 6.1040 provenance substring heuristic, else the unknown sentinel. -/
def extractCourseFromSuggestion (s : Suggestion) : String :=
  match s.canvasMetadata with
  | some meta =>
    match meta.course_name with
    | some c => if c = "" then "Unknown Course" else c
    | none => "Unknown Course"
  | none =>
    match s.provenance with
    | some p => if includesStr p "6.1040" then "6.1040" else "Unknown Course"
    | none => "Unknown Course"

/-- confirm: rejects an already-confirmed suggestion, rejects a falsy title or
missing due, otherwise sets confirmed, stores the updated record and returns
the canonical tuple. -/
def confirm (st : List Suggestion) (s : Suggestion) (user : User) :
    Except String ConfirmData × List Suggestion :=
  if s.confirmed then (.error "Suggestion is already confirmed", st)
  else if s.title = "" ∨ s.due = none then
    (.error "Suggestion must have valid title and due date", st)
  else
    let s2 := { s with confirmed := true }
    let st2 := (updateSuggestionList st s.id s2).getD st
    (.ok { course := extractCourseFromSuggestion s2
           title := s2.title
           due := s2.due
           source := s2.source
           addedBy := user }, st2)

/-- editSuggestion (service): looks the suggestion up by id (null result when
absent), applies the module-level edit and stores the result. -/
def editSuggestionSvc (st : List Suggestion) (sid : String) (u : SuggestionUpdates) :
    Option Suggestion × List Suggestion :=
  match getSuggestionById st sid with
  | none => (none, st)
  | some s =>
    let s2 := editSuggestionPure s u
    (some s2, (updateSuggestionList st sid s2).getD st)

/-- updateSuggestionTime (service): looks the suggestion up by id, applies the
module-level time update, and stores the result only on success. -/
def updateSuggestionTimeSvc (st : List Suggestion) (sid : String) (newTime : String) :
    Bool × List Suggestion :=
  match getSuggestionById st sid with
  | none => (false, st)
  | some s =>
    match updateSuggestionTimePure s newTime with
    | none => (false, st)
    | some s2 => (true, (updateSuggestionList st sid s2).getD st)

/-- refineWithFeedback: parse the refinement response exactly as an extraction
response (with the original suggestion's document, source and URL), fail on
zero refined suggestions, else take the first, force the original id, stack
the refinement warning on the prior warnings, and store the replacement. -/
def refineWithFeedback (parseDate : String → JsDate) (mkId : Nat → String)
    (st : List Suggestion) (s : Suggestion) (response : Payload) :
    Except String Suggestion × List Suggestion :=
  match parseLLMResponse parseDate mkId response s.uploadedDocument s.source s.websiteUrl with
  | .error e => (.error e, st)
  | .ok refined =>
    match refined with
    | [] => (.error "No refined suggestions returned from LLM", st)
    | r0 :: _ =>
      let r := { r0 with
        id := s.id
        warnings := s.warnings ++ ["Refined with user feedback"] }
      (.ok r, (updateSuggestionList st s.id r).getD st)

/-- llmExtractFromDocument (the intake path the structural-validation claims
are about): parse the response, run domain validation against the existing
collection, then append the validated batch to the store.  A structural error
propagates before any suggestion is stored. -/
def llmExtractFromDocument (parseDate : String → JsDate) (mkId : Nat → String)
    (now : Minutes) (st : List Suggestion) (document : UploadedDocument)
    (response : Payload) : Except String (List Suggestion) × List Suggestion :=
  match parseLLMResponse parseDate mkId response (some document) .SYLLABUS none with
  | .error e => (.error e, st)
  | .ok suggestions =>
    let validated := (validateSuggestionsRun now suggestions st).1
    (.ok validated, st ++ validated)

/-- The payload shapes the structural tier rejects. -/
def structurallyInvalid : Payload → Bool
  | .notObject => true
  | .object .missing => true
  | .object .notArray => true
  | .object (.arr _) => false

/-! ## Statement helpers -/

/-- Confidence present and above the threshold (the claim-level reading of the
hallucination gate). -/
def confAbove (q : ℚ) : Option ℚ → Bool
  | some c => decide (q < c)
  | none => false

/-- The one-way-flag relation between a store before and after an operation:
same shape, and a record confirmed before is confirmed after. -/
def confirmedPreserved (st st2 : List Suggestion) : Prop :=
  List.Forall₂ (fun a b => a.confirmed = true → b.confirmed = true) st st2

/-! ## Concrete fixtures (used by witnesses and counterexamples)

dayOct1 = 20362 is the civil day number of 2025-10-01 (a Wednesday);
2025-10-02 (a Thursday, day of month 2) is day 20363. -/

def dayOct1 : Nat := 20362

/-- A deterministic id supply. -/
def cMkId : Nat → String := fun n => "id" ++ toString n

/-- A concrete external date parser: one known date text, everything else an
Invalid Date. -/
def cDp : String → JsDate := fun s =>
  if s = "D1" then .valid ((dayOct1 + 1) * 1440 + 600) else .invalid

def cUser : User := { id := "u1", name := "Tester", email := "tester@example.com" }

/-- An unconfirmed, well-formed suggestion. -/
def cSugU : Suggestion :=
  { id := "s1", title := "PS1", due := some (.valid ((dayOct1 + 1) * 1440 + 600))
    source := .SYLLABUS }

/-- A confirmed suggestion. -/
def cSugC : Suggestion :=
  { id := "c1", title := "Old Title", due := some (.valid ((dayOct1 + 1) * 1440 + 600))
    source := .SYLLABUS, confirmed := true }

/-- An unconfirmed suggestion with a prior warning and a website reference,
for the refinement claims. -/
def cSugR : Suggestion :=
  { id := "r1", title := "A3", due := some (.valid ((dayOct1 + 1) * 1440 + 600))
    source := .WEBSITE, warnings := ["w0"], websiteUrl := some "https://site" }

/-- Due 2025-10-01T10:00 local, for the time-of-day claims. -/
def cSugTime : Suggestion :=
  { id := "t1", title := "PS3", due := some (.valid (dayOct1 * 1440 + 600))
    source := .SYLLABUS }

/-- Due 2025-10-01T23:30 local (a Wednesday), after 23:00. -/
def cSugLate : Suggestion :=
  { id := "l1", title := "Quiz", due := some (.valid (dayOct1 * 1440 + 23 * 60 + 30))
    source := .SYLLABUS }

/-- Vague title with high confidence. -/
def cSugTBD9 : Suggestion :=
  { id := "h1", title := "Final Project TBD", due := some (.valid ((dayOct1 + 1) * 1440 + 600))
    source := .SYLLABUS, confidence := some (mkRat 9 10) }

/-- Vague title with moderate confidence. -/
def cSugTBD5 : Suggestion :=
  { id := "h2", title := "Final Project TBD", due := some (.valid ((dayOct1 + 1) * 1440 + 600))
    source := .SYLLABUS, confidence := some (mkRat 5 10) }

/-- A candidate with a present but unparsable due text and an out-of-range
confidence. -/
def cBadItem : RawItem :=
  { title := some "HW1", due := some "not-a-date", confidence := some 5 }

/-- A well-formed refinement candidate. -/
def cItemR : RawItem :=
  { title := some "Refined PS1", due := some "D1", confidence := some (mkRat 9 10)
    provenance := some "LLM refinement" }

def cPayloadOne : Payload := .object (.arr [cItemR])

def cPayloadEmpty : Payload := .object (.arr [])

/-- The first refined suggestion parseLLMResponse builds from cPayloadOne for
cSugR's document/source/URL context. -/
def cR0 : Suggestion :=
  { id := "id0", title := "Refined PS1", due := some (.valid ((dayOct1 + 1) * 1440 + 600))
    source := .WEBSITE, confirmed := false, extractionMethod := some .LLM
    confidence := some (mkRat 9 10), provenance := some "LLM refinement", warnings := []
    uploadedDocument := none, canvasMetadata := none, websiteUrl := some "https://site" }

/-- The first refined suggestion parseLLMResponse builds from cPayloadOne for
cSugC's context (no document, SYLLABUS source, no URL). -/
def cR0C : Suggestion :=
  { id := "id0", title := "Refined PS1", due := some (.valid ((dayOct1 + 1) * 1440 + 600))
    source := .SYLLABUS, confirmed := false, extractionMethod := some .LLM
    confidence := some (mkRat 9 10), provenance := some "LLM refinement", warnings := []
    uploadedDocument := none, canvasMetadata := none, websiteUrl := none }

def cNow : Minutes := 0

def cDoc : UploadedDocument :=
  { id := "d1", filename := "syllabus.txt", content := "PS1 due", fileType := "txt"
    uploadDate := .valid 0 }

/-! ## Helper lemmas -/

theorem convertItems_cons (parseDate : String → JsDate) (mkId : Nat → String)
    (document : Option UploadedDocument) (source : SourceType) (websiteUrl : Option String)
    (item : RawItem) (rest : List RawItem) (idx : Nat) :
    convertItems parseDate mkId document source websiteUrl (item :: rest) idx
      = if truthyStr item.title && truthyStr item.due then
          itemToSuggestion parseDate mkId document source websiteUrl idx item
            :: convertItems parseDate mkId document source websiteUrl rest (idx + 1)
        else convertItems parseDate mkId document source websiteUrl rest idx := rfl

theorem countW_append (w : String) (a b : List String) :
    countW w (a ++ b) = countW w a + countW w b := by
  induction a with
  | nil => simp [countW]
  | cons x rest ih => simp [countW, ih]; ring

theorem truthyStr_getD {o : Option String} (h : truthyStr o = true) : o.getD "" ≠ "" := by
  cases o with
  | none => simp [truthyStr] at h
  | some s => simpa [truthyStr] using h

theorem getHoursN_le {d : JsDate} {h : Nat} (hh : d.getHoursN = some h) : h ≤ 23 := by
  cases d with
  | invalid => simp [JsDate.getHoursN] at hh
  | valid t =>
    simp only [JsDate.getHoursN, Option.some.injEq] at hh
    subst hh
    have h1 : t % 1440 ≤ 1439 := Nat.le_of_lt_succ (Nat.mod_lt _ (by norm_num))
    calc t % 1440 / 60 ≤ 1439 / 60 := Nat.div_le_div_right h1
    _ = 23 := by norm_num

theorem day_preserved (t r : Nat) (hr : r < 1440) :
    (t / 1440 * 1440 + r) / 1440 = t / 1440 := by
  rw [Nat.mul_comm (t / 1440) 1440, Nat.mul_add_div (by norm_num : 0 < 1440),
    Nat.div_eq_of_lt hr, Nat.add_zero]

theorem editSuggestionPure_confirmed (s : Suggestion) (u : SuggestionUpdates) :
    (editSuggestionPure s u).confirmed = s.confirmed := by
  rcases u with ⟨t, d, c, p⟩
  cases t <;> cases d <;> cases c <;> cases p <;> rfl

theorem updateSuggestionTimePure_confirmed {s s2 : Suggestion} {newTime : String}
    (h : updateSuggestionTimePure s newTime = some s2) : s2.confirmed = s.confirmed := by
  unfold updateSuggestionTimePure at h
  rcases hs : searchTime newTime.data with _ | ⟨h0, m, p⟩ <;> rw [hs] at h
  · exact absurd h (by simp)
  · simp only [Option.some.injEq] at h
    rw [← h]
    exact editSuggestionPure_confirmed _ _

theorem addWarn_confirmed (s : Suggestion) (w : String) :
    (addWarn s w).confirmed = s.confirmed := rfl

theorem weekendCheck_confirmed (s : Suggestion) (issues : List String) :
    (weekendCheck s issues).1.confirmed = s.confirmed := by
  dsimp only [weekendCheck]
  repeat' split
  all_goals rfl

theorem earlyMorningCheck_confirmed (s : Suggestion) (issues : List String) :
    (earlyMorningCheck s issues).1.confirmed = s.confirmed := by
  dsimp only [earlyMorningCheck]
  repeat' split
  all_goals rfl

theorem lateEveningCheck_confirmed (s : Suggestion) (issues : List String) :
    (lateEveningCheck s issues).1.confirmed = s.confirmed := by
  dsimp only [lateEveningCheck]
  repeat' split
  all_goals rfl

theorem vagueTermCheck_confirmed (s : Suggestion) (issues : List String) :
    (vagueTermCheck s issues).1.confirmed = s.confirmed := by
  dsimp only [vagueTermCheck]
  repeat' split
  all_goals rfl

theorem shortDeadlineCheck_confirmed (now : Minutes) (s : Suggestion) (issues : List String) :
    (shortDeadlineCheck now s issues).1.confirmed = s.confirmed := by
  dsimp only [shortDeadlineCheck]
  repeat' split
  all_goals rfl

theorem roundDateCheck_confirmed (s : Suggestion) (issues : List String) :
    (roundDateCheck s issues).1.confirmed = s.confirmed := by
  dsimp only [roundDateCheck]
  repeat' split
  all_goals rfl

theorem pastDateCheck_confirmed (now : Minutes) (s : Suggestion) (issues : List String) :
    (pastDateCheck now s issues).1.confirmed = s.confirmed := by
  dsimp only [pastDateCheck]
  repeat' split
  all_goals rfl

theorem farFutureCheck_confirmed (now : Minutes) (s : Suggestion) (issues : List String) :
    (farFutureCheck now s issues).1.confirmed = s.confirmed := by
  dsimp only [farFutureCheck]
  repeat' split
  all_goals rfl

theorem duplicateCheck_confirmed (allSugs : List Suggestion) (s : Suggestion)
    (issues : List String) :
    (duplicateCheck allSugs s issues).1.confirmed = s.confirmed := by
  dsimp only [duplicateCheck]
  repeat' split
  all_goals rfl

theorem lowConfidenceCheck_confirmed (s : Suggestion) (issues : List String) :
    (lowConfidenceCheck s issues).1.confirmed = s.confirmed := by
  dsimp only [lowConfidenceCheck]
  repeat' split
  all_goals rfl

theorem validateAcademicCalendarLogic_confirmed (s : Suggestion) (issues : List String) :
    (validateAcademicCalendarLogic s issues).1.confirmed = s.confirmed := by
  dsimp only [validateAcademicCalendarLogic]
  rw [lateEveningCheck_confirmed, earlyMorningCheck_confirmed, weekendCheck_confirmed]

theorem validateForHallucination_confirmed (now : Minutes) (s : Suggestion)
    (issues : List String) :
    (validateForHallucination now s issues).1.confirmed = s.confirmed := by
  dsimp only [validateForHallucination]
  rw [roundDateCheck_confirmed, shortDeadlineCheck_confirmed, vagueTermCheck_confirmed]

theorem validateSuggestionOne_confirmed (now : Minutes) (allSugs : List Suggestion)
    (s : Suggestion) (issues : List String) :
    (validateSuggestionOne now allSugs s issues).1.confirmed = s.confirmed := by
  dsimp only [validateSuggestionOne]
  rw [validateForHallucination_confirmed, validateAcademicCalendarLogic_confirmed,
    lowConfidenceCheck_confirmed, duplicateCheck_confirmed, farFutureCheck_confirmed,
    pastDateCheck_confirmed]

theorem confirmedPreserved_refl (l : List Suggestion) : confirmedPreserved l l := by
  induction l with
  | nil => exact List.Forall₂.nil
  | cons s rest ih => exact List.Forall₂.cons (fun h => h) ih

theorem updateList_confirmedPreserved (sid : String) (v : Suggestion) :
    ∀ st : List Suggestion,
      (∀ s, getSuggestionById st sid = some s → s.confirmed = true → v.confirmed = true) →
      confirmedPreserved st ((updateSuggestionList st sid v).getD st) := by
  intro st
  induction st with
  | nil => intro _; exact List.Forall₂.nil
  | cons s rest ih =>
    intro hv
    by_cases h : s.id == sid
    · have hfind : getSuggestionById (s :: rest) sid = some s := by
        simp [getSuggestionById, List.find?, h]
      rw [updateSuggestionList, if_pos h]
      exact List.Forall₂.cons (hv s hfind) (confirmedPreserved_refl rest)
    · have hfind : ∀ s1, getSuggestionById rest sid = some s1 →
          getSuggestionById (s :: rest) sid = some s1 := by
        intro s1 h1
        simp [getSuggestionById, List.find?, h]
        exact h1
      have ih2 := ih (fun s1 h1 => hv s1 (hfind s1 h1))
      rw [updateSuggestionList, if_neg h]
      rcases hrec : updateSuggestionList rest sid v with _ | rest2
      · exact confirmedPreserved_refl _
      · rw [hrec] at ih2
        exact List.Forall₂.cons (fun hh => hh) ih2

theorem truthyNum_and_gt (c : ℚ) :
    ((c != 0) && decide (mkRat 7 10 < c)) = decide (mkRat 7 10 < c) := by
  by_cases h : mkRat 7 10 < c
  · have hne : c ≠ 0 := by
      intro h0
      rw [h0] at h
      norm_num [Rat.mkRat_eq_div] at h
    simp [h, hne]
  · simp [h]

/-! ## Claim theorems -/

/-- Claim C1: confirming a suggestion whose confirmed flag is already true
fails with an error and leaves the store exactly as it was (so the stored
record, including its confirmed flag, is unchanged); confirming an unconfirmed
suggestion with a title and due present sets confirmed = true, stores the
updated record, and returns the tuple of course, title, due, source and the
confirming user. -/
theorem C1_confirm_behavior (st : List Suggestion) (s : Suggestion) (u : User) :
    (s.confirmed = true →
      confirm st s u = (.error "Suggestion is already confirmed", st)) ∧
    (s.confirmed = false → s.title ≠ "" → s.due ≠ none →
      confirm st s u =
        (.ok { course := extractCourseFromSuggestion { s with confirmed := true }
               title := s.title
               due := s.due
               source := s.source
               addedBy := u },
         (updateSuggestionList st s.id { s with confirmed := true }).getD st)) := by
  constructor
  · intro h
    simp [confirm, h]
  · intro h ht hd
    simp [confirm, h, ht, hd]

/-- Witness for C1 at concrete inputs: the double confirm fails leaving the
one-element store intact, and the fresh confirm succeeds with the canonical
tuple. -/
theorem C1_confirm_behavior_witness :
    confirm [cSugC] cSugC cUser = (.error "Suggestion is already confirmed", [cSugC]) ∧
    confirm [cSugU] cSugU cUser =
      (.ok { course := "Unknown Course", title := "PS1", due := cSugU.due
             source := .SYLLABUS, addedBy := cUser },
       [{ cSugU with confirmed := true }]) := by
  constructor
  · exact (C1_confirm_behavior [cSugC] cSugC cUser).1 rfl
  · have h := (C1_confirm_behavior [cSugU] cSugU cUser).2 rfl (by decide) (by decide)
    rw [h]
    rfl

/-- Claim C7: a structurally invalid payload (not an object, suggestions field
missing, or suggestions field not an array) makes document intake fail with an
error before any suggestion is created, leaving the store contents equal to
what they were. -/
theorem C7_structural_failure (parseDate : String → JsDate) (mkId : Nat → String)
    (now : Minutes) (st : List Suggestion) (document : UploadedDocument) (p : Payload)
    (h : structurallyInvalid p = true) :
    ∃ e, llmExtractFromDocument parseDate mkId now st document p = (.error e, st) := by
  cases p with
  | notObject => exact ⟨_, rfl⟩
  | object sf =>
    cases sf with
    | missing => exact ⟨_, rfl⟩
    | notArray => exact ⟨_, rfl⟩
    | arr items => simp [structurallyInvalid] at h

/-- Witness for C7: a payload without the suggestions array aborts intake with
the store untouched. -/
theorem C7_structural_failure_witness :
    ∃ e, llmExtractFromDocument cDp cMkId cNow [cSugU] cDoc (.object .missing)
      = (.error e, [cSugU]) :=
  C7_structural_failure cDp cMkId cNow [cSugU] cDoc (.object .missing) rfl

/-- Claim C10: a candidate entry whose confidence is present with the explicit
value 0 is converted with the 0.5 default (the default applies to every falsy
confidence, exactly as to an absent one). -/
theorem C10_confidence_default (parseDate : String → JsDate) (mkId : Nat → String)
    (document : Option UploadedDocument) (source : SourceType) (websiteUrl : Option String)
    (item : RawItem) (rest : List RawItem) (idx : Nat)
    (ht : truthyStr item.title = true) (hd : truthyStr item.due = true) :
    (item.confidence = some 0 ∨ item.confidence = none) →
      ((convertItems parseDate mkId document source websiteUrl (item :: rest) idx).head?.map
          Suggestion.confidence) = some (some (mkRat 5 10)) := by
  intro hc
  rcases hc with hc | hc <;>
    simp [convertItems_cons, itemToSuggestion, ht, hd, hc]

/-- Witness for C10: a concrete entry with confidence 0 is stored with 0.5. -/
theorem C10_confidence_default_witness :
    ((convertItems cDp cMkId none .SYLLABUS none
        [{ title := some "HW2", due := some "D1", confidence := some 0 }] 0).head?.map
       Suggestion.confidence) = some (some (mkRat 5 10)) :=
  C10_confidence_default cDp cMkId none .SYLLABUS none
    { title := some "HW2", due := some "D1", confidence := some 0 } [] 0
    (by decide) (by decide) (Or.inl rfl)

/-- Claim C3 counterexample: an entry whose due text is present but does not
parse, and whose confidence is 5 (outside the range 0 to 1), is not skipped:
intake stores it, with an Invalid Date as due and the out-of-range confidence
kept. -/
theorem C3_counterexample :
    parseLLMResponse (fun _ => JsDate.invalid) cMkId (.object (.arr [cBadItem]))
        none .SYLLABUS none
      = .ok [{ id := "id0", title := "HW1", due := some JsDate.invalid
               source := .SYLLABUS, confirmed := false
               extractionMethod := some .LLM, confidence := some 5
               provenance := some "LLM extraction", warnings := []
               uploadedDocument := none, canvasMetadata := none, websiteUrl := none }] := by
  rfl

/-- Claim C3 amended: intake skips exactly the candidate entries whose title
or due field is missing or empty (falsy); an entry with a present but
unparsable due text, or a confidence outside the range, is still converted —
so every stored suggestion has a non-empty title and a present due value,
though the due may be an Invalid Date. -/
theorem C3_amended_intake (parseDate : String → JsDate) (mkId : Nat → String)
    (document : Option UploadedDocument) (source : SourceType) (websiteUrl : Option String)
    (items : List RawItem) (idx : Nat) :
    (∀ s ∈ convertItems parseDate mkId document source websiteUrl items idx,
        s.title ≠ "" ∧ s.due.isSome = true) ∧
    (convertItems parseDate mkId document source websiteUrl items idx).length
      = (items.filter (fun it => truthyStr it.title && truthyStr it.due)).length ∧
    parseLLMResponse parseDate mkId (.object (.arr items)) document source websiteUrl
      = .ok (convertItems parseDate mkId document source websiteUrl items 0) := by
  refine ⟨?_, ?_, rfl⟩
  · induction items generalizing idx with
    | nil => simp [convertItems]
    | cons item rest ih =>
      intro s hs
      by_cases h : truthyStr item.title && truthyStr item.due
      · rw [convertItems_cons, if_pos h] at hs
        rcases List.mem_cons.mp hs with hs | hs
        · subst hs
          exact ⟨truthyStr_getD (Bool.and_elim_left h), rfl⟩
        · exact ih (idx + 1) s hs
      · rw [convertItems_cons, if_neg h] at hs
        exact ih idx s hs
  · induction items generalizing idx with
    | nil => simp [convertItems]
    | cons item rest ih =>
      by_cases h : truthyStr item.title && truthyStr item.due
      · rw [convertItems_cons, if_pos h]
        simp [List.filter, h, ih (idx + 1)]
      · rw [convertItems_cons, if_neg h]
        simp only [List.filter]
        rw [Bool.not_eq_true] at h
        rw [h]
        exact ih idx


/-- Claim C4: for an unconfirmed stored suggestion, refinement takes the first
candidate of the response, overwrites title, due, confidence and provenance,
keeps the id identical, and produces warnings equal to the previous warnings
with the refinement entry appended; a response with zero candidates makes the
operation fail with an error, leaving the store unchanged. -/
theorem C4_refine_behavior (parseDate : String → JsDate) (mkId : Nat → String)
    (st : List Suggestion) (s : Suggestion) (response : Payload)
    (hc : s.confirmed = false) :
    (parseLLMResponse parseDate mkId response s.uploadedDocument s.source s.websiteUrl
        = .ok [] →
      refineWithFeedback parseDate mkId st s response
        = (.error "No refined suggestions returned from LLM", st)) ∧
    (∀ r0 rest,
      parseLLMResponse parseDate mkId response s.uploadedDocument s.source s.websiteUrl
          = .ok (r0 :: rest) →
      ∃ r, refineWithFeedback parseDate mkId st s response
            = (.ok r, (updateSuggestionList st s.id r).getD st)
        ∧ r.id = s.id
        ∧ r.title = r0.title ∧ r.due = r0.due ∧ r.confidence = r0.confidence
        ∧ r.provenance = r0.provenance
        ∧ r.warnings = s.warnings ++ ["Refined with user feedback"]) := by
  constructor
  · intro h
    simp [refineWithFeedback, h]
  · intro r0 rest h
    refine ⟨{ r0 with id := s.id, warnings := s.warnings ++ ["Refined with user feedback"] }, ?_, rfl, rfl, rfl, rfl, rfl, rfl⟩
    simp [refineWithFeedback, h]

/-- Witness for C4 at concrete inputs: an empty candidate list fails leaving
the store alone; a one-candidate response overwrites the fields of cSugR while
keeping its id and appending the refinement warning after the prior one. -/
theorem C4_refine_behavior_witness :
    refineWithFeedback cDp cMkId [cSugR] cSugR cPayloadEmpty
        = (.error "No refined suggestions returned from LLM", [cSugR]) ∧
    (∃ r, refineWithFeedback cDp cMkId [cSugR] cSugR cPayloadOne
          = (.ok r, (updateSuggestionList [cSugR] cSugR.id r).getD [cSugR])
      ∧ r.id = cSugR.id
      ∧ r.title = cR0.title ∧ r.due = cR0.due ∧ r.confidence = cR0.confidence
      ∧ r.provenance = cR0.provenance
      ∧ r.warnings = cSugR.warnings ++ ["Refined with user feedback"]) := by
  constructor
  · exact (C4_refine_behavior cDp cMkId [cSugR] cSugR cPayloadEmpty rfl).1 rfl
  · exact (C4_refine_behavior cDp cMkId [cSugR] cSugR cPayloadOne rfl).2 cR0 [] (by rfl)

/-- Claim C5 counterexample: with due 2025-10-01T10:00 the time text "99:99"
is accepted by the pattern (it is not rejected), and the resulting due has
rolled four days forward to 2025-10-05 — the operation neither failed nor
preserved the date component. -/
theorem C5_counterexample :
    (updateSuggestionTimeSvc [cSugTime] "t1" "99:99").1 = true ∧
    ((getSuggestionById (updateSuggestionTimeSvc [cSugTime] "t1" "99:99").2 "t1").bind
        (fun s => s.due.bind JsDate.dayNumber)) = some (dayOct1 + 4) ∧
    cSugTime.due.bind JsDate.dayNumber = some dayOct1 := by
  exact ⟨rfl, rfl, rfl⟩

/-- Claim C5 amended: the set-time operation rejects text the pattern does not
match, reporting failure and leaving the suggestion and store unchanged; on a
match it replaces due by setHours(adjusted hour, minute) of the old due, and
whenever the adjusted time denotes a moment within one day (adjusted hour and
minute combining to less than 24 hours) the date component is preserved —
out-of-range matched times such as "99:99" instead roll the date forward.  In
particular due 2025-10-01T10:00 with "11:59 PM" yields 2025-10-01T23:59. -/
theorem C5_time_update (s : Suggestion) (newTime : String) :
    (searchTime newTime.data = none →
      updateSuggestionTimePure s newTime = none ∧
      (∀ st sid, getSuggestionById st sid = some s →
        updateSuggestionTimeSvc st sid newTime = (false, st))) ∧
    (∀ h0 m period, searchTime newTime.data = some (h0, m, period) →
      ∃ s2, updateSuggestionTimePure s newTime = some s2
        ∧ s2.due = some ((match s.due with
            | some d => d
            | none => JsDate.invalid).setHoursMinutes (adjustHours h0 period) m)
        ∧ (∀ t, s.due = some (.valid t) → adjustHours h0 period * 60 + m < 1440 →
            s2.due.bind JsDate.dayNumber = some (t / 1440))) ∧
    (updateSuggestionTimePure cSugTime "11:59 PM").map (fun s2 => s2.due)
      = some (some (.valid (dayOct1 * 1440 + 23 * 60 + 59))) := by
  refine ⟨?_, ?_, rfl⟩
  · intro h
    refine ⟨by simp [updateSuggestionTimePure, h], ?_⟩
    intro st sid hfind
    simp [updateSuggestionTimeSvc, hfind, updateSuggestionTimePure, h]
  · intro h0 m period h
    refine ⟨editSuggestionPure s { due := some ((match s.due with
        | some d => d
        | none => JsDate.invalid).setHoursMinutes (adjustHours h0 period) m) },
      by simp [updateSuggestionTimePure, h], ?_, ?_⟩
    · simp [editSuggestionPure]
    · intro t ht hlt
      have hdp : (t / 1440 * 1440 + adjustHours h0 period * 60 + m) / 1440 = t / 1440 := by
        rw [Nat.add_assoc]
        exact day_preserved t (adjustHours h0 period * 60 + m) hlt
      simp [editSuggestionPure, ht, JsDate.setHoursMinutes, JsDate.dayNumber, hdp]


theorem gate_cond_eq (title : String) (conf : Option ℚ) :
    (hasVagueTerms title && truthyNum conf && (match conf with
      | some c => decide (mkRat 7 10 < c)
      | none => false)) = (hasVagueTerms title && confAbove (mkRat 7 10) conf) := by
  cases conf with
  | none => simp [truthyNum, confAbove]
  | some c => rw [Bool.and_assoc, truthyNum, confAbove, truthyNum_and_gt]

theorem vagueTermCheck_countW (s : Suggestion) (issues : List String) :
    countW hallucWarn (vagueTermCheck s issues).1.warnings
      = countW hallucWarn s.warnings
        + (if hasVagueTerms s.title && truthyNum s.confidence
              && (match s.confidence with
                | some c => decide (mkRat 7 10 < c)
                | none => false) then 1 else 0) := by
  dsimp only [vagueTermCheck]
  split_ifs with h
  · simp [addWarn, countW_append, countW]
  · simp

theorem shortDeadlineCheck_countW_halluc (now : Minutes) (s : Suggestion)
    (issues : List String) :
    countW hallucWarn (shortDeadlineCheck now s issues).1.warnings
      = countW hallucWarn s.warnings := by
  dsimp only [shortDeadlineCheck]
  repeat' split
  all_goals simp [addWarn, countW_append, countW, hallucWarn]

theorem roundDateCheck_countW_halluc (s : Suggestion) (issues : List String) :
    countW hallucWarn (roundDateCheck s issues).1.warnings
      = countW hallucWarn s.warnings := by
  dsimp only [roundDateCheck]
  repeat' split
  all_goals simp [addWarn, countW_append, countW, hallucWarn]

theorem validateForHallucination_countW (now : Minutes) (s : Suggestion)
    (issues : List String) :
    countW hallucWarn (validateForHallucination now s issues).1.warnings
      = countW hallucWarn s.warnings
        + (if hasVagueTerms s.title && truthyNum s.confidence
              && (match s.confidence with
                | some c => decide (mkRat 7 10 < c)
                | none => false) then 1 else 0) := by
  dsimp only [validateForHallucination]
  rw [roundDateCheck_countW_halluc, shortDeadlineCheck_countW_halluc, vagueTermCheck_countW]

theorem weekendCheck_countW_late (s : Suggestion) (issues : List String) :
    countW lateWarn (weekendCheck s issues).1.warnings = countW lateWarn s.warnings := by
  dsimp only [weekendCheck]
  repeat' split
  all_goals simp [addWarn, countW_append, countW, lateWarn]

theorem earlyMorningCheck_countW_late (s : Suggestion) (issues : List String) :
    countW lateWarn (earlyMorningCheck s issues).1.warnings = countW lateWarn s.warnings := by
  dsimp only [earlyMorningCheck]
  repeat' split
  all_goals simp [addWarn, countW_append, countW, lateWarn]

theorem lateEveningCheck_id (s : Suggestion) (issues : List String) :
    lateEveningCheck s issues = (s, issues) := by
  dsimp only [lateEveningCheck]
  rcases hdue : s.due with _ | d
  · rfl
  · cases d with
    | invalid => rfl
    | valid tm =>
      dsimp only [JsDate.getHoursN]
      have hle : tm % 1440 / 60 ≤ 23 := by
        have h1 : tm % 1440 ≤ 1439 := Nat.le_of_lt_succ (Nat.mod_lt _ (by norm_num))
        calc tm % 1440 / 60 ≤ 1439 / 60 := Nat.div_le_div_right h1
          _ = 23 := by norm_num
      rw [if_neg (Nat.not_lt.mpr hle)]

/-- Claim C6 counterexample: a confirmed stored suggestion is manually edited
with no error: the edit is accepted and the stored title changes — editing is
not rejected for confirmed suggestions. -/
theorem C6_counterexample :
    cSugC.confirmed = true ∧
    (editSuggestionSvc [cSugC] "c1" { title := some "New Title" }).1.isSome = true ∧
    (getSuggestionById (editSuggestionSvc [cSugC] "c1" { title := some "New Title" }).2
        "c1").map Suggestion.title = some "New Title" := ⟨rfl, rfl, rfl⟩

/-- Claim C6 amended: the editing and refinement operations check existence
only, not confirmation; applied to a stored suggestion with confirmed = true
they succeed — the manual edit is applied, a matched time text reports
success, and refinement with a non-empty candidate list returns ok. -/
theorem C6_no_confirmed_guard (st : List Suggestion) (sid : String) (s : Suggestion)
    (u : SuggestionUpdates) (newTime : String) (parseDate : String → JsDate)
    (mkId : Nat → String) (response : Payload)
    (hfind : getSuggestionById st sid = some s) (hc : s.confirmed = true) :
    (editSuggestionSvc st sid u).1 = some (editSuggestionPure s u) ∧
    (∀ h0 m p, searchTime newTime.data = some (h0, m, p) →
      (updateSuggestionTimeSvc st sid newTime).1 = true) ∧
    (∀ r0 rest,
      parseLLMResponse parseDate mkId response s.uploadedDocument s.source s.websiteUrl
          = .ok (r0 :: rest) →
      (refineWithFeedback parseDate mkId st s response).1.isOk = true) := by
  refine ⟨?_, ?_, ?_⟩
  · simp [editSuggestionSvc, hfind]
  · intro h0 m p h
    simp [updateSuggestionTimeSvc, hfind, updateSuggestionTimePure, h]
  · intro r0 rest h
    simp [refineWithFeedback, h, Except.isOk, Except.toBool]

/-- Witness for C6 at concrete inputs: the confirmed suggestion cSugC is
edited, retimed and refined without any rejection. -/
theorem C6_no_confirmed_guard_witness :
    (editSuggestionSvc [cSugC] "c1" { title := some "T2" }).1
        = some (editSuggestionPure cSugC { title := some "T2" }) ∧
    (updateSuggestionTimeSvc [cSugC] "c1" "23:59").1 = true ∧
    (refineWithFeedback cDp cMkId [cSugC] cSugC cPayloadOne).1.isOk = true := by
  obtain ⟨h1, h2, h3⟩ := C6_no_confirmed_guard [cSugC] "c1" cSugC { title := some "T2" }
      "23:59" cDp cMkId cPayloadOne rfl rfl
  exact ⟨h1, h2 23 59 none rfl, h3 cR0C [] (by rfl)⟩

/-- Claim C2 counterexample: after confirming the stored suggestion s1 its
flag is true, but refining it (which no guard prevents) replaces the stored
record with a fresh one whose confirmed flag is false — the flag does go back
to false under an operation of the service. -/
theorem C2_counterexample :
    ((getSuggestionById (confirm [cSugU] cSugU cUser).2 "s1").map Suggestion.confirmed
        = some true) ∧
    ((getSuggestionById (refineWithFeedback cDp cMkId (confirm [cSugU] cSugU cUser).2
          { cSugU with confirmed := true } cPayloadOne).2 "s1").map Suggestion.confirmed
        = some false) := ⟨rfl, rfl⟩

/-- Claim C2 amended: confirm, manual edits, time updates and domain
validation never take a stored suggestion from confirmed = true back to false
(confirm only raises the flag, the editors preserve it, validation only
appends warnings); refineWithFeedback is the exception — it replaces the
record with one whose confirmed flag is unset. -/
theorem C2_confirmed_one_way (st : List Suggestion) (s t : Suggestion) (u : User)
    (sid : String) (upd : SuggestionUpdates) (newTime : String) (now : Minutes)
    (allSugs : List Suggestion) (issues : List String) :
    confirmedPreserved st (confirm st s u).2 ∧
    confirmedPreserved st (editSuggestionSvc st sid upd).2 ∧
    confirmedPreserved st (updateSuggestionTimeSvc st sid newTime).2 ∧
    (validateSuggestionOne now allSugs t issues).1.confirmed = t.confirmed := by
  refine ⟨?_, ?_, ?_, validateSuggestionOne_confirmed now allSugs t issues⟩
  · dsimp only [confirm]
    split
    · exact confirmedPreserved_refl st
    · split
      · exact confirmedPreserved_refl st
      · exact updateList_confirmedPreserved s.id { s with confirmed := true } st
          (fun _ _ _ => rfl)
  · rcases hfind : getSuggestionById st sid with _ | s0
    · simp only [editSuggestionSvc, hfind]
      exact confirmedPreserved_refl st
    · simp only [editSuggestionSvc, hfind]
      refine updateList_confirmedPreserved sid (editSuggestionPure s0 upd) st ?_
      intro s1 h1 hc1
      rw [hfind] at h1
      injection h1 with h1
      subst h1
      rw [editSuggestionPure_confirmed]
      exact hc1
  · rcases hfind : getSuggestionById st sid with _ | s0
    · simp only [updateSuggestionTimeSvc, hfind]
      exact confirmedPreserved_refl st
    · rcases hup : updateSuggestionTimePure s0 newTime with _ | s2
      · simp only [updateSuggestionTimeSvc, hfind, hup]
        exact confirmedPreserved_refl st
      · simp only [updateSuggestionTimeSvc, hfind, hup]
        refine updateList_confirmedPreserved sid s2 st ?_
        intro s1 h1 hc1
        rw [hfind] at h1
        injection h1 with h1
        subst h1
        rw [updateSuggestionTimePure_confirmed hup]
        exact hc1

/-- Claim C8 (code bug): the late-evening check of the calendar validator
compares getHours() — which is at most 23 — strictly against 23, so it can
never fire: the late-evening warning count is unchanged for every suggestion,
and the concrete suggestion due 2025-10-01T23:30 (a Wednesday, after 23:00)
receives no warning at all, although the claim (and the comment in the
source) says it should receive the late-evening warning. -/
theorem C8_late_check_dead (s : Suggestion) (issues : List String) :
    countW lateWarn (validateAcademicCalendarLogic s issues).1.warnings
      = countW lateWarn s.warnings ∧
    (validateAcademicCalendarLogic cSugLate []).1.warnings = [] := by
  constructor
  · dsimp only [validateAcademicCalendarLogic]
    rw [lateEveningCheck_id, earlyMorningCheck_countW_late, weekendCheck_countW_late]
  · rfl

/-- Claim C9: domain validation appends the vague-term hallucination warning
exactly when the title contains one of the closed vague markers (tbd, soon,
later, eventually, sometime) case-insensitively and the confidence is present
and greater than 0.7 (written mkRat 7 10); the title Final Project TBD
receives it with confidence 0.9 and not with confidence 0.5. -/
theorem C9_hallucination_warning (now : Minutes) (s : Suggestion) (issues : List String) :
    countW hallucWarn (validateForHallucination now s issues).1.warnings
      = countW hallucWarn s.warnings
        + (if hasVagueTerms s.title && confAbove (mkRat 7 10) s.confidence
           then 1 else 0) ∧
    (validateForHallucination cNow cSugTBD9 []).1.warnings = [hallucWarn] ∧
    (validateForHallucination cNow cSugTBD5 []).1.warnings = [] := by
  refine ⟨?_, by rfl, by rfl⟩
  rw [validateForHallucination_countW, gate_cond_eq]

end Duestack
